import Mathlib

set_option maxRecDepth 8192

/-!
Verification of the symptom-intake dialogue logic of `src/healthcare.py`
(repository `healthcare-ai`).

Text is modelled as `List Char`; Python's `str.lower` is modelled per
character with `Char.toLower` (all data handled by the program's own
string constants is ASCII), Python's substring test `k in s` with
`List.isInfixOf`, `str.startswith` with `List.isPrefixOf`, and
`str.strip()` with dropping `Char.isWhitespace` characters from both
ends.
-/

namespace HealthcareAI

/-- Program text is modelled as a list of characters. -/
abbrev Str : Type := List Char

/-- Coercion from a Lean string literal to the `List Char` text model. -/
def sLit (s : String) : Str := s.toList

/-- Single-quote character (written via its code point). -/
def squote : Str := [Char.ofNat 39]

/-- TRIGGER_KEYWORDS, src/healthcare.py line 105. -/
def TRIGGER_KEYWORDS : List Str :=
  [sLit "symptom", sLit "constipation", sLit "pain", sLit "fever", sLit "headache",
   sLit "cold", sLit "flu", sLit "cough", sLit "heart", sLit "stomach", sLit "skin"]

/-- Model of Python's `str.lower()` on the ASCII data this program handles. -/
def pyLower (t : Str) : Str := List.map Char.toLower t

/-- Model of Python's substring test `k in s`. -/
def substr_in (k s : Str) : Bool := decide (List.IsInfix k s)

/-- Trigger classifier: the inline check
`any(k in user_input.lower() for k in TRIGGER_KEYWORDS)`
at src/healthcare.py line 436. -/
def classify (t : Str) : Bool :=
  List.any TRIGGER_KEYWORDS (fun k => substr_in k (pyLower t))

/-- Lowering a whitespace character is the identity. -/
theorem toLower_of_whitespace {c : Char} (h : c.isWhitespace = true) :
    c.toLower = c := by
  simp only [Char.isWhitespace, Bool.or_eq_true, decide_eq_true_eq] at h
  obtain ((h | h) | h) | h := h <;> subst h <;> decide

/-- Every trigger keyword contains a non-whitespace character. -/
theorem trigger_keywords_not_blank :
    ∀ k ∈ TRIGGER_KEYWORDS, ∃ c ∈ k, c.isWhitespace = false := by decide

/-- C1: the trigger classifier returns true exactly when the lower-cased
input contains a trigger keyword as a substring, and returns false on
whitespace-only (in particular empty) input. -/
theorem classify_spec (t : Str) :
    (classify t = true ↔ ∃ k ∈ TRIGGER_KEYWORDS, List.IsInfix k (pyLower t)) ∧
    ((∀ c ∈ t, c.isWhitespace = true) → classify t = false) := by
  constructor
  · simp only [classify, substr_in, List.any_eq_true, decide_eq_true_eq]
  · intro hws
    by_contra hcl
    simp only [Bool.not_eq_false, classify, substr_in, List.any_eq_true,
      decide_eq_true_eq] at hcl
    obtain ⟨k, hk, hinf⟩ := hcl
    obtain ⟨c, hc, hcws⟩ := trigger_keywords_not_blank k hk
    have hmem : c ∈ pyLower t := List.IsInfix.subset hinf hc
    obtain ⟨c0, hc0, hc0l⟩ := List.mem_map.mp hmem
    have h0 : c0.isWhitespace = true := hws c0 hc0
    rw [toLower_of_whitespace h0] at hc0l
    subst hc0l
    rw [h0] at hcws
    exact Bool.true_eq_false.mp hcws

/-- Witness for C1 at concrete inputs: whitespace-only input classifies
as false. -/
theorem classify_spec_witness : classify (sLit "   ") = false :=
  (classify_spec (sLit "   ")).2 (by decide)

/-!
Response post-processor (`parse_and_display_response`,
src/healthcare.py lines 175-211; the spec calls it `extractVisualAid`).

Modelled from the spec: the literal regular expression in
src/healthcare.py lines 187 and 190 is corrupted in the source file
(the bracketed pattern was stripped, leaving `re.findall(r'\', ...)`),
so the tag pattern is taken from the spec's description: a tag of the
textual form given by the system instruction, an opening bracket
followed by the words Image of, a space, a non-greedily captured
phrase, and a closing bracket, matched case-insensitively and never
spanning newlines.  Non-greedy capture means the phrase ends at the
first closing bracket; a newline before that closing bracket makes the
candidate fail, exactly as a dot that does not match newline would.
-/

/-- Lower-cased head of the tag pattern (an opening bracket, the words
image of, and a trailing space). -/
def tag_head : Str := sLit "[image of "

/-- Scan the text after the tag head for the non-greedy phrase capture:
succeed at the first closing bracket, fail at a newline or at the end
of the text, and return the captured phrase with the rest of the text. -/
def scanPhrase : Str → Option (Str × Str)
  | [] => none
  | c :: cs =>
    if c = ']' then some ([], cs)
    else if c = '\n' then none
    else match scanPhrase cs with
      | some pr => some (c :: pr.1, pr.2)
      | none => none

/-- Try to match one image tag at the head of `l`; on success return the
captured phrase and the text following the tag. -/
def matchTagAt (l : Str) : Option (Str × Str) :=
  if pyLower (List.take 10 l) = tag_head then scanPhrase (List.drop 10 l) else none

/-- One left-to-right pass over the text, collecting the leftmost
non-overlapping tag matches (as `re.findall` and `re.sub` both do):
the first component is the text with all matches removed, the second
the captured phrases in order of occurrence.  The fuel argument only
serves termination; every step consumes at least one character, so
fuel equal to the length of the text is never exhausted. -/
def scanAux : Nat → Str → Str × List Str
  | _, [] => ([], [])
  | 0, l => (l, [])
  | f + 1, c :: cs =>
    match matchTagAt (c :: cs) with
    | some pr => ((scanAux f pr.2).1, pr.1 :: (scanAux f pr.2).2)
    | none => (c :: (scanAux f cs).1, (scanAux f cs).2)

/-- Model of Python's `str.strip()`: drop whitespace from both ends. -/
def pyStrip (l : Str) : Str :=
  ((List.dropWhile Char.isWhitespace l).reverse.dropWhile Char.isWhitespace).reverse

/-- The `re.findall` pass: all captured phrases, in order of occurrence. -/
def image_tags (t : Str) : List Str := (scanAux t.length t).2

/-- The `re.sub` pass followed by `.strip()`: the display text. -/
def clean_text (t : Str) : Str := pyStrip (scanAux t.length t).1

/-- Response post-processor, spec name `extractVisualAid`: display text
together with the extracted image requests. -/
def parse_and_display_response (t : Str) : Str × List Str :=
  (clean_text t, image_tags t)

/-- A pass that found no tag left the text unchanged. -/
theorem scanAux_no_tags :
    ∀ (f : Nat) (l : Str), (scanAux f l).2 = [] → (scanAux f l).1 = l := by
  intro f
  induction f with
  | zero =>
    intro l _
    cases l <;> rfl
  | succ f ih =>
    intro l h
    cases l with
    | nil => rfl
    | cons c cs =>
      rw [scanAux] at h ⊢
      cases hm : matchTagAt (c :: cs) with
      | some pr => rw [hm] at h; simp at h
      | none =>
        rw [hm] at h
        dsimp only at h ⊢
        rw [ih cs h]

/-- Dropping is idempotent. -/
theorem dropWhile_dropWhile (p : Char → Bool) (l : Str) :
    List.dropWhile p (List.dropWhile p l) = List.dropWhile p l := by
  induction l with
  | nil => rfl
  | cons c cs ih =>
    rw [List.dropWhile_cons]
    by_cases h : p c = true
    · rw [if_pos h]; exact ih
    · rw [if_neg h, List.dropWhile_cons, if_neg h]

/-- A left strip that is already a fixed point stays one on prefixes. -/
theorem dropWhile_eq_self_of_prefix (p : Char → Bool) (x y : Str)
    (hx : List.dropWhile p x = x) (hpre : y <+: x) :
    List.dropWhile p y = y := by
  cases y with
  | nil => rfl
  | cons c ys =>
    obtain ⟨zs, hz⟩ := hpre
    subst hz
    rw [List.cons_append, List.dropWhile_cons] at hx
    rw [List.dropWhile_cons]
    by_cases h : p c = true
    · rw [if_pos h] at hx
      have hlen := (List.dropWhile_sublist (l := ys ++ zs) p).length_le
      rw [hx] at hlen
      simp at hlen
    · rw [if_neg h]

/-- Stripping both ends is idempotent. -/
theorem pyStrip_idem (l : Str) : pyStrip (pyStrip l) = pyStrip l := by
  set p := Char.isWhitespace with hp
  set u := List.dropWhile p l with hu
  have hA : List.dropWhile p u = u := dropWhile_dropWhile p l
  have hsuf : List.dropWhile p u.reverse <:+ u.reverse := List.dropWhile_suffix p
  have hpre : (List.dropWhile p u.reverse).reverse <+: u := by
    have := List.reverse_prefix.mpr hsuf
    rwa [List.reverse_reverse] at this
  have hv : List.dropWhile p (List.dropWhile p u.reverse).reverse =
      (List.dropWhile p u.reverse).reverse :=
    dropWhile_eq_self_of_prefix p u _ hA hpre
  show ((List.dropWhile p
      ((List.dropWhile p (List.dropWhile p u.reverse).reverse).reverse)).reverse) = _
  rw [hv, List.reverse_reverse, dropWhile_dropWhile]
  unfold pyStrip
  rw [← hp, ← hu]

/-- C2: the response post-processor pairs the stripped tag-free text with
the captured phrases in order, and on a text with no tag it returns the
stripped input unchanged with no image requests. -/
theorem parse_response_spec (t : Str) :
    parse_and_display_response t = (pyStrip (scanAux t.length t).1, image_tags t) ∧
    (image_tags t = [] → parse_and_display_response t = (pyStrip t, [])) := by
  refine ⟨rfl, fun h => ?_⟩
  unfold image_tags at h
  unfold parse_and_display_response clean_text image_tags
  rw [scanAux_no_tags _ _ h, h]

/-- Witness for C2 at a concrete input with no tag. -/
theorem parse_response_spec_witness :
    parse_and_display_response (sLit " hello world ") =
      (pyStrip (sLit " hello world "), []) :=
  (parse_response_spec (sLit " hello world ")).2 (by decide)

/-- C8 counterexample: removing a tag can splice the surrounding text
into a new tag, so re-applying the post-processor to its own display
text can extract a further image request and change the text. -/
theorem extract_not_idempotent :
    parse_and_display_response
        ((parse_and_display_response (sLit "[Image[Image of x] of y]")).1) ≠
      ((parse_and_display_response (sLit "[Image[Image of x] of y]")).1, []) := by
  decide

/-- C8 amended: whenever the second application extracts no further
image request, it also returns the display text unchanged. -/
theorem extract_idempotent_conditional (t : Str)
    (h : (parse_and_display_response ((parse_and_display_response t).1)).2 = []) :
    parse_and_display_response ((parse_and_display_response t).1) =
      ((parse_and_display_response t).1, []) := by
  have h2 : image_tags (clean_text t) = [] := h
  have h1 : (scanAux (clean_text t).length (clean_text t)).1 = clean_text t :=
    scanAux_no_tags _ _ h2
  have h3 : clean_text (clean_text t) = pyStrip (clean_text t) := by
    show pyStrip (scanAux (clean_text t).length (clean_text t)).1 = pyStrip (clean_text t)
    rw [h1]
  have h4 : pyStrip (clean_text t) = clean_text t := pyStrip_idem (scanAux t.length t).1
  show (clean_text (clean_text t), image_tags (clean_text t)) = (clean_text t, [])
  rw [h2, h3, h4]

/-- Witness for C8 amended at a concrete input. -/
theorem extract_idempotent_conditional_witness :
    parse_and_display_response
        ((parse_and_display_response (sLit "hi [Image of x] there")).1) =
      ((parse_and_display_response (sLit "hi [Image of x] there")).1, []) :=
  extract_idempotent_conditional (sLit "hi [Image of x] there") (by decide)

/-!
Dialogue controller: the Streamlit session state and event handling of
src/healthcare.py, modelled as an explicit state machine.  A transport
is a function from the dispatched prompt to either the model reply or
an error string; `step` returns the next state together with the list
of prompts dispatched to the transport during the event.
-/

/-- Message roles. -/
inductive Role where
  | user
  | assistant
deriving DecidableEq

/-- One entry of `st.session_state.messages`. -/
structure ChatMessage where
  role : Role
  content : Str
deriving DecidableEq

/-- The context collected by the context form (`st.session_state.user_details`,
fully overwritten on each submission). -/
structure UserDetails where
  gender : Str
  age : Str
  weight : Nat
  therapy : Str
deriving DecidableEq

/-- The session state of src/healthcare.py lines 117-131. -/
structure SessionState where
  asking_for_details : Bool
  show_prescription_form : Bool
  user_details : Option UserDetails
  current_language : Str
  messages : List ChatMessage
deriving DecidableEq

/-- Transport: the Gemini chat call, returning the reply text or raising
an error described by a string. -/
def Transport : Type := Str → Except Str Str

/-- Greeting message installed by `reset_chat` (lines 164-165). -/
def greeting_msg : Str :=
  sLit "Welcome!⛑ I am your Dr Drug Lord. Ask me about your symptoms."

/-- Fixed assistant message appended when context is required (line 440). -/
def context_required_msg : Str :=
  sLit "*Context Required:* Please fill the form above so I can give you a specific solution."

/-- State after `reset_chat` (lines 152-171); the language selector is a
sidebar widget not touched by the reset. -/
def reset_state (lang : Str) : SessionState :=
  { asking_for_details := false
    show_prescription_form := false
    user_details := none
    current_language := lang
    messages := [⟨Role.assistant, greeting_msg⟩] }

/-- Initial session state (default language English, line 125). -/
def init_state : SessionState := reset_state (sLit "English")

/-- Final prompt built by `handle_final_response` (lines 226-233) from the
base prompt; it reads the session only through `current_language`. -/
def mkFinalPrompt (s : SessionState) (base_prompt : Str) (is_medicine_request : Bool) : Str :=
  if is_medicine_request then
    base_prompt ++ sLit "\n\nOutput in *" ++ s.current_language ++
      sLit "*. Keep it brief: Usage + Key Symptoms treated."
  else
    base_prompt ++ sLit "\n\nConstraint: Respond in " ++ s.current_language ++
      sLit ". Keep it concise. Structure as: 1. Short Summary (assess if [Image of...] tag is needed and insert it IMMEDIATELY after the summary). 2. Bullet points for Solutions."

/-- User-visible history entry written by `handle_final_response` (line 235). -/
def display_content (base_prompt : Str) (is_medicine_request : Bool) : Str :=
  if is_medicine_request then sLit "Requesting info for medicine: " ++ base_prompt
  else base_prompt

/-- Model of `handle_final_response` (lines 215-266): build the final
prompt, append the user-visible entry, call the transport once, and
append the reply, or the error converted to a human-readable message,
as the assistant entry.  The second component lists the prompts
dispatched to the transport. -/
def handle_final_response (tr : Transport) (s : SessionState)
    (base_prompt : Str) (is_medicine_request : Bool) : SessionState × List Str :=
  let final_prompt := mkFinalPrompt s base_prompt is_medicine_request
  let full_response :=
    match tr final_prompt with
    | Except.ok r => r
    | Except.error e => sLit "An error occurred: " ++ e
  ({ s with messages := s.messages ++
      [⟨Role.user, display_content base_prompt is_medicine_request⟩,
       ⟨Role.assistant, full_response⟩] },
   [final_prompt])

/-- Predicate selecting the history entry that holds the original
complaint: a user message whose content does not start with the
medicine-request marker (lines 278-279). -/
def is_symptom_msg (m : ChatMessage) : Bool :=
  decide (m.role = Role.user) && !(List.isPrefixOf (sLit "Requesting info") m.content)

/-- Recovery of the original symptom text (lines 277-281): the content of
the most recent qualifying user entry, with a fixed fallback. -/
def original_symptom (msgs : List ChatMessage) : Str :=
  match List.find? is_symptom_msg msgs.reverse with
  | some m => m.content
  | none => sLit "General health enquiry."

/-- Context-enriched prompt of `handle_context_form_submit` (lines
283-291).  The source file is itself corrupted where the image-tag
literal stood inside this prompt (the words appropriate and tag are
separated by two spaces where the bracketed tag name was stripped);
the text is embedded as it stands in src. -/
def context_prompt (g a : Str) (w : Nat) (th sym : Str) : Str :=
  sLit "User Complaint: " ++ sym ++
  sLit "\nContext: " ++ g ++
  sLit ", Age " ++ a ++
  sLit ", Weight " ++ sLit (toString w) ++
  sLit "kg\nPreferred Approach: " ++ th ++
  sLit "\n\nTask: Provide a VERY SHORT, structured response.\n1. Explain the problem in 1-2 sentences. Crucially, assess if an anatomical or procedural diagram helps explain the condition (e.g., knee anatomy for knee pain, digestive system for constipation). If a diagram helps, insert the appropriate  tag immediately after the summary sentence.\n2. Provide 4-5 bullet points of clear solutions/remedies based on " ++
  squote ++ th ++ squote ++
  sLit ".\nDo not lecture. Go straight to the point."

/-- Model of `handle_context_form_submit` (lines 270-294): store the
details, leave the context-form state, build the context-enriched
prompt from the recovered symptom, and dispatch it. -/
def handle_context_form_submit (tr : Transport) (s : SessionState)
    (g a : Str) (w : Nat) (th : Str) : SessionState × List Str :=
  let s1 := { s with
    user_details := some ⟨g, a, w, th⟩
    asking_for_details := false }
  handle_final_response tr s1 (context_prompt g a w th (original_symptom s.messages)) false

/-- Medicine-lookup prompt built by the medicine form (lines 372-375). -/
def med_prompt (name : Str) : Str :=
  sLit "Please explain the general usage, purpose, and common symptoms treated by the medicine: " ++
  squote ++ name ++ squote ++
  sLit ". Provide a clear note on when it is typically used."

/-- User events of the rendered page. -/
inductive Event where
  | submitText (t : Str)
  | submitContextForm (g a : Str) (w : Nat) (th : Str)
  | submitMedicineForm (name : Str)
  | toggleMedicineForm
  | clearChat
  | setLanguage (lang : Str)

/-- One event step of the controller.  Guards mirror which widgets the
script renders: the free-text and voice input only exist when neither
modal flag is set (line 415) and ignore empty input (line 435); the
context form only exists while `asking_for_details` (line 381); the
medicine form only exists while `show_prescription_form` and ignores an
empty name (lines 362, 371); the sidebar medicine toggle (line 322) and
the clear button are always rendered. -/
def step (tr : Transport) (ev : Event) (s : SessionState) : SessionState × List Str :=
  match ev with
  | Event.submitText t =>
    if s.asking_for_details || s.show_prescription_form then (s, [])
    else if t = [] then (s, [])
    else if classify t then
      ({ s with
          messages := s.messages ++
            [⟨Role.user, t⟩, ⟨Role.assistant, context_required_msg⟩]
          asking_for_details := true }, [])
    else handle_final_response tr s t false
  | Event.submitContextForm g a w th =>
    if s.asking_for_details then handle_context_form_submit tr s g a w th
    else (s, [])
  | Event.submitMedicineForm name =>
    if s.show_prescription_form && !(name = []) then
      let r := handle_final_response tr s (med_prompt name) true
      ({ r.1 with show_prescription_form := false }, r.2)
    else (s, [])
  | Event.toggleMedicineForm =>
    ({ s with show_prescription_form := !s.show_prescription_form }, [])
  | Event.clearChat => (reset_state s.current_language, [])
  | Event.setLanguage lang => ({ s with current_language := lang }, [])

/-- Reachable session states: the initial state, closed under any event
with any transport. -/
inductive Reachable : SessionState → Prop where
  | init : Reachable init_state
  | next (tr : Transport) (ev : Event) (s : SessionState) :
      Reachable s → Reachable (step tr ev s).1

/-- A transport that always fails, usable for concrete traces. -/
def err_transport : Transport := fun _ => Except.error []

/-- A text is an infix of itself followed by anything. -/
theorem isInfix_head (m r : Str) : List.IsInfix m (m ++ r) :=
  (List.prefix_append m r).isInfix

/-- An infix of a text is an infix of that text with anything prepended. -/
theorem isInfix_tail (m x r : Str) (h : List.IsInfix m r) : List.IsInfix m (x ++ r) :=
  h.trans (List.suffix_append x r).isInfix

/-- State reached by submitting a trigger input and then clicking the
always-rendered sidebar medicine toggle. -/
def both_flags_state : SessionState :=
  (step err_transport Event.toggleMedicineForm
    (step err_transport (Event.submitText (sLit "I have a fever")) init_state).1).1

/-- C3 counterexample: a reachable state has both modal flags set at
once, because the sidebar medicine toggle is rendered even while the
context form is awaiting input. -/
theorem modal_flags_both_true :
    Reachable both_flags_state ∧
    both_flags_state.asking_for_details = true ∧
    both_flags_state.show_prescription_form = true :=
  ⟨Reachable.next _ _ _ (Reachable.next _ _ _ Reachable.init), by decide, by decide⟩

/-- C3 amended: the flags are not mutually exclusive, but the main
free-text input is only accepted while both are false: with either flag
set, a text submission leaves the state unchanged and calls no
transport. -/
theorem main_input_gated (tr : Transport) (t : Str) (s : SessionState)
    (h : s.asking_for_details = true ∨ s.show_prescription_form = true) :
    step tr (Event.submitText t) s = (s, []) := by
  rcases h with h | h <;> simp [step, h]

/-- Witness for C3 amended at a concrete state with the context flag set. -/
theorem main_input_gated_witness :
    step err_transport (Event.submitText (sLit "pain"))
        { init_state with asking_for_details := true } =
      ({ init_state with asking_for_details := true }, []) :=
  main_input_gated err_transport (sLit "pain") _ (Or.inl rfl)

/-- C4: on a medicine-form submission the user-visible history entry is
the medicine-request marker followed by the full internal lookup
prompt, not by the medicine name. -/
theorem medicine_display_diverges :
    (step err_transport (Event.submitMedicineForm (sLit "Dolo 650"))
        { init_state with show_prescription_form := true }).1.messages.get? 1 =
      some ⟨Role.user, sLit "Requesting info for medicine: " ++ med_prompt (sLit "Dolo 650")⟩ ∧
    sLit "Requesting info for medicine: " ++ med_prompt (sLit "Dolo 650") ≠
      sLit "Requesting info for medicine: Dolo 650" := by
  refine ⟨rfl, by decide⟩

/-- C5: a submission the classifier marks as needing context appends the
user message and the fixed context-required assistant message, sets the
context flag, and dispatches nothing to the transport. -/
theorem trigger_transition_spec (tr : Transport) (t : Str) (s : SessionState)
    (h1 : s.asking_for_details = false) (h2 : s.show_prescription_form = false)
    (h3 : t ≠ []) (h4 : classify t = true) :
    step tr (Event.submitText t) s =
      ({ s with
          messages := s.messages ++
            [⟨Role.user, t⟩, ⟨Role.assistant, context_required_msg⟩]
          asking_for_details := true }, []) := by
  simp [step, h1, h2, h3, h4]

/-- Witness for C5 on the concrete input of the spec scenario. -/
theorem trigger_transition_witness :
    step err_transport (Event.submitText (sLit "I have a fever")) init_state =
      ({ init_state with
          messages := init_state.messages ++
            [⟨Role.user, sLit "I have a fever"⟩, ⟨Role.assistant, context_required_msg⟩]
          asking_for_details := true }, []) :=
  trigger_transition_spec err_transport (sLit "I have a fever") init_state rfl rfl
    (by decide) (by decide)

/-- C6: a context-form submission dispatches exactly the context-enriched
prompt, which contains the gender, age range, weight, therapy choice and
the recovered original symptom as substrings, and clears the context
flag. -/
theorem context_submit_prompt_spec (tr : Transport) (s : SessionState)
    (g a th : Str) (w : Nat) (h : s.asking_for_details = true) :
    (step tr (Event.submitContextForm g a w th) s).2 =
      [mkFinalPrompt s (context_prompt g a w th (original_symptom s.messages)) false] ∧
    (step tr (Event.submitContextForm g a w th) s).1.asking_for_details = false ∧
    List.IsInfix g (context_prompt g a w th (original_symptom s.messages)) ∧
    List.IsInfix a (context_prompt g a w th (original_symptom s.messages)) ∧
    List.IsInfix (sLit (toString w)) (context_prompt g a w th (original_symptom s.messages)) ∧
    List.IsInfix th (context_prompt g a w th (original_symptom s.messages)) ∧
    List.IsInfix (original_symptom s.messages)
      (context_prompt g a w th (original_symptom s.messages)) := by
  refine ⟨?_, ?_, ?_, ?_, ?_, ?_, ?_⟩
  · simp [step, h, handle_context_form_submit, handle_final_response, mkFinalPrompt]
  · simp [step, h, handle_context_form_submit, handle_final_response]
  all_goals unfold context_prompt
  all_goals simp only [List.append_assoc]
  all_goals repeat first
  | exact isInfix_head _ _
  | apply isInfix_tail

/-- Witness for C6 on the concrete form values of the spec scenario. -/
theorem context_submit_prompt_witness :
    List.IsInfix (sLit "Male")
      (context_prompt (sLit "Male") (sLit "18-45") 70 (sLit "modern")
        (original_symptom ({ init_state with asking_for_details := true }).messages)) ∧
    (step err_transport
        (Event.submitContextForm (sLit "Male") (sLit "18-45") 70 (sLit "modern"))
        { init_state with asking_for_details := true }).1.asking_for_details = false :=
  ⟨(context_submit_prompt_spec err_transport { init_state with asking_for_details := true }
      (sLit "Male") (sLit "18-45") (sLit "modern") 70 rfl).2.2.1,
   (context_submit_prompt_spec err_transport { init_state with asking_for_details := true }
      (sLit "Male") (sLit "18-45") (sLit "modern") 70 rfl).2.1⟩

/-- C7: a failing transport call appends the user entry and an assistant
entry holding a human-readable error string, the transport is attempted
exactly once in both the failing and the successful case, and every
state component other than the history is the same as on success. -/
theorem transport_error_spec (te tg : Transport) (s : SessionState)
    (b : Str) (m : Bool) (e r : Str)
    (he : te (mkFinalPrompt s b m) = Except.error e)
    (ho : tg (mkFinalPrompt s b m) = Except.ok r) :
    (handle_final_response te s b m).2 = [mkFinalPrompt s b m] ∧
    (handle_final_response tg s b m).2 = [mkFinalPrompt s b m] ∧
    (handle_final_response te s b m).1.messages =
      s.messages ++ [⟨Role.user, display_content b m⟩,
        ⟨Role.assistant, sLit "An error occurred: " ++ e⟩] ∧
    (handle_final_response tg s b m).1.messages =
      s.messages ++ [⟨Role.user, display_content b m⟩, ⟨Role.assistant, r⟩] ∧
    (handle_final_response te s b m).1.asking_for_details =
      (handle_final_response tg s b m).1.asking_for_details ∧
    (handle_final_response te s b m).1.show_prescription_form =
      (handle_final_response tg s b m).1.show_prescription_form ∧
    (handle_final_response te s b m).1.user_details =
      (handle_final_response tg s b m).1.user_details ∧
    (handle_final_response te s b m).1.current_language =
      (handle_final_response tg s b m).1.current_language := by
  simp [handle_final_response, he, ho]

/-- Witness for C7 with concrete failing and succeeding transports. -/
theorem transport_error_witness :
    (handle_final_response (fun _ => Except.error (sLit "boom")) init_state
        (sLit "hello") false).1.messages =
      init_state.messages ++ [⟨Role.user, display_content (sLit "hello") false⟩,
        ⟨Role.assistant, sLit "An error occurred: " ++ sLit "boom"⟩] :=
  (transport_error_spec (fun _ => Except.error (sLit "boom"))
    (fun _ => Except.ok (sLit "fine")) init_state (sLit "hello") false
    (sLit "boom") (sLit "fine") rfl rfl).2.2.1

/-- C9: the final prompt depends on the session only through the language
field, and the prompt dispatched by a context-form submission depends on
the session only through the language, the context-flag and the history,
never on the transport. -/
theorem prompt_noninterference (s1 s2 : SessionState)
    (hl : s1.current_language = s2.current_language) :
    (∀ b m, mkFinalPrompt s1 b m = mkFinalPrompt s2 b m) ∧
    (∀ tr1 tr2 g a th w, s1.asking_for_details = s2.asking_for_details →
      s1.messages = s2.messages →
      (step tr1 (Event.submitContextForm g a w th) s1).2 =
        (step tr2 (Event.submitContextForm g a w th) s2).2) := by
  constructor
  · intro b m
    unfold mkFinalPrompt
    rw [hl]
  · intro tr1 tr2 g a th w hf hm
    cases hA : s1.asking_for_details with
    | true =>
      have hA2 : s2.asking_for_details = true := by rw [← hf]; exact hA
      simp [step, hA, hA2, handle_context_form_submit, handle_final_response,
        mkFinalPrompt, hm, hl]
    | false =>
      have hA2 : s2.asking_for_details = false := by rw [← hf]; exact hA
      simp [step, hA, hA2]

/-- Witness for C9: two sessions differing in a modal flag but agreeing
on the language build the same final prompt. -/
theorem prompt_noninterference_witness :
    mkFinalPrompt init_state (sLit "hi") false =
      mkFinalPrompt { init_state with show_prescription_form := true } (sLit "hi") false :=
  (prompt_noninterference init_state
    { init_state with show_prescription_form := true } rfl).1 (sLit "hi") false

/-- C10: when no history entry qualifies as the original complaint, the
context-form submission dispatches the context-enriched prompt built
from the fixed fallback complaint text. -/
theorem fallback_complaint_spec (tr : Transport) (s : SessionState)
    (g a th : Str) (w : Nat)
    (h : s.asking_for_details = true)
    (hn : List.find? is_symptom_msg s.messages.reverse = none) :
    (step tr (Event.submitContextForm g a w th) s).2 =
      [mkFinalPrompt s
        (context_prompt g a w th (sLit "General health enquiry.")) false] := by
  have hs : original_symptom s.messages = sLit "General health enquiry." := by
    unfold original_symptom
    rw [hn]
  simp [step, h, handle_context_form_submit, handle_final_response, mkFinalPrompt, hs]

/-- Witness for C10: the fresh session history holds only the assistant
greeting, so the fallback complaint is used. -/
theorem fallback_complaint_witness :
    (step err_transport
        (Event.submitContextForm (sLit "Male") (sLit "18-45") 70 (sLit "modern"))
        { init_state with asking_for_details := true }).2 =
      [mkFinalPrompt { init_state with asking_for_details := true }
        (context_prompt (sLit "Male") (sLit "18-45") 70 (sLit "modern")
          (sLit "General health enquiry.")) false] :=
  fallback_complaint_spec err_transport { init_state with asking_for_details := true }
    (sLit "Male") (sLit "18-45") (sLit "modern") 70 rfl (by decide)

end HealthcareAI
